import Mathlib

/-!
Shallow embedding of the Loan-App backend (`api/index.js`): the borrower
data model, the balance calculator, the payment / penalty / delete
operations on both the file-storage and the database code paths, and the
backend-selector state machine.  JavaScript numbers are modelled as exact
rationals (`ℚ`); JavaScript truthiness tests on numbers (`x && y`,
`x || 0`) are modelled as tests against `0`.  Wall-clock fields
(`createdAt`, `nextDueDate`, payment/penalty dates and free-text notes)
take no part in any balance computation and are omitted from the record.
-/

namespace LoanApp

/-- A payment record (`{ amount, date, note }` in the source); only the
amount enters any computation. -/
structure Payment where
  amount : ℚ
  deriving Repr, DecidableEq

/-- A penalty record (`{ amount, reason, date, type }` in the source);
only the amount enters any computation. -/
structure Penalty where
  amount : ℚ
  deriving Repr, DecidableEq

/-- The borrower record as built by `handleCreateLoan` and stored by both
backends. -/
structure Borrower where
  _id : String
  name : String
  contact : String
  address : String
  loanAmount : ℚ
  term : ℚ
  interestRate : ℚ
  interestType : String
  monthlyPayment : ℚ
  payments : List Payment
  penalties : List Penalty
  totalPenalties : ℚ
  remainingBalance : ℚ
  deriving Repr, DecidableEq

/-- `calculateInitialBalance` (api/index.js:64-81): loan amount plus total
simple interest; degenerate loans (`loanAmount <= 0 || term <= 0`) are
returned unchanged. -/
def calculateInitialBalance (loanAmount interestRate term : ℚ)
    (interestType : String) : ℚ :=
  if loanAmount ≤ 0 ∨ term ≤ 0 then loanAmount
  else
    let monthlyInterestRate :=
      if interestType = "annually" then interestRate / 12 else interestRate
    let monthlyInterest := loanAmount * (monthlyInterestRate / 100)
    let totalInterest := monthlyInterest * term
    loanAmount + totalInterest

/-- The total-interest recomputation inlined in both the payment path
(api/index.js:327-334) and the penalty path (api/index.js:400-407).  The
source guards it with JavaScript truthiness
`if (borrower.interestRate && borrower.term)`, i.e. both numbers nonzero. -/
def recomputedInterest (loanAmount interestRate term : ℚ)
    (interestType : String) : ℚ :=
  if interestRate ≠ 0 ∧ term ≠ 0 then
    let monthlyInterestRate :=
      if interestType = "annually" then interestRate / 12 else interestRate
    let monthlyInterest := loanAmount * (monthlyInterestRate / 100)
    monthlyInterest * term
  else 0

/-- The total-interest term implied by creation:
`calculateInitialBalance` returns `loanAmount + totalInterestAtCreation`
(zero interest in the degenerate branch). -/
def totalInterestAtCreation (loanAmount interestRate term : ℚ)
    (interestType : String) : ℚ :=
  if loanAmount ≤ 0 ∨ term ≤ 0 then 0
  else loanAmount *
    ((if interestType = "annually" then interestRate / 12 else interestRate) / 100)
    * term

/-- Sum of the amounts of a payment history, as computed by
`(borrower.payments || []).reduce((sum, p) => sum + (p.amount || 0), 0)`. -/
def sumPaymentAmounts (ps : List Payment) : ℚ :=
  (ps.map Payment.amount).sum

/-- Sum of the amounts of a penalty history, as computed by
`(borrower.penalties || []).reduce((sum, p) => sum + (p.amount || 0), 0)`. -/
def sumPenaltyAmounts (ps : List Penalty) : ℚ :=
  (ps.map Penalty.amount).sum

/-- The borrower record built by `handleCreateLoan` (api/index.js:200-220)
from an already-normalized body (`Number(x) || 0` defaulting and the
`interestType || "monthly"` default happen before these values arrive). -/
def createBorrower (id name contact address : String)
    (loanAmount term interestRate : ℚ) (interestType : String)
    (monthlyPayment : ℚ) : Borrower :=
  { _id := id
    name := name
    contact := contact
    address := address
    loanAmount := loanAmount
    term := term
    interestRate := interestRate
    interestType := interestType
    monthlyPayment := monthlyPayment
    payments := []
    penalties := []
    totalPenalties := 0
    remainingBalance :=
      calculateInitialBalance loanAmount interestRate term interestType }

/-- Effect of the payment branch of `handleUpdateLoan`
(api/index.js:312-361) on the matched borrower: append the payment and
store the recomputed balance, floored at zero by `Math.max(..., 0)`. -/
def applyPaymentB (b : Borrower) (pay : Payment) : Borrower :=
  let totalPayments := sumPaymentAmounts b.payments + pay.amount
  let totalPenalties := b.totalPenalties
  let newBalance :=
    max (b.loanAmount +
      recomputedInterest b.loanAmount b.interestRate b.term b.interestType +
      totalPenalties - totalPayments) 0
  { b with payments := b.payments ++ [pay], remainingBalance := newBalance }

/-- Effect of the penalty branch of `handleUpdateLoan`
(api/index.js:386-438) on the matched borrower: append the penalty, store
the recomputed total penalties and the recomputed balance (no floor). -/
def applyPenaltyB (b : Borrower) (pen : Penalty) : Borrower :=
  let existingPenalties := sumPenaltyAmounts b.penalties
  let newTotalPenalties := existingPenalties + pen.amount
  let totalPayments := sumPaymentAmounts b.payments
  let newBalance :=
    b.loanAmount +
      recomputedInterest b.loanAmount b.interestRate b.term b.interestType +
      newTotalPenalties - totalPayments
  { b with penalties := b.penalties ++ [pen],
           totalPenalties := newTotalPenalties,
           remainingBalance := newBalance }

/-- Outcome of a payment / penalty request as seen through the HTTP
status codes of `handleUpdateLoan`: `validation` = 400 with the given
message, `notFound` = 404, `ok` = 200 with the new balance. -/
inductive Outcome where
  | validation (msg : String)
  | notFound
  | ok (newBalance : ℚ)
  deriving Repr, DecidableEq

/-- Outcome of a delete request through `handleDeleteLoan`. -/
inductive DeleteOutcome where
  | validation (msg : String)
  | notFound
  | deleted
  deriving Repr, DecidableEq

/-- First borrower whose `_id === id`, as found by
`data.borrowers.find(b => b._id === id)`. -/
def findBorrower (i : String) : List Borrower → Option Borrower
  | [] => none
  | b :: rest => if b._id = i then some b else findBorrower i rest

/-- Replace the record at the first index whose `_id === id` (the
`findIndex` + in-place assignment used by the file-storage branches). -/
def setFirst (i : String) (nb : Borrower) : List Borrower → List Borrower
  | [] => []
  | b :: rest => if b._id = i then nb :: rest else b :: setFirst i nb rest

/-- Remove the record at the first index whose `_id === id` (the
`findIndex` + `splice(borrowerIndex, 1)` of `handleDeleteLoan`,
api/index.js:481-487). -/
def removeFirst (i : String) : List Borrower → List Borrower
  | [] => []
  | b :: rest => if b._id = i then rest else b :: removeFirst i rest

/-- Payment branch of `handleUpdateLoan` on the file-storage path
(api/index.js:291-364).  `rawAmount = none` models a missing or
non-numeric `body.payment.amount`, which `Number(...) || 0` normalizes to
`0`.  Note the source looks the borrower up *before* validating the
amount. -/
def handleApplyPaymentFile (borrowers : List Borrower) (id : Option String)
    (rawAmount : Option ℚ) : Outcome × List Borrower :=
  match id with
  | none => (Outcome.validation "Missing borrower id.", borrowers)
  | some i =>
    match findBorrower i borrowers with
    | none => (Outcome.notFound, borrowers)
    | some borrower =>
      let amount := rawAmount.getD 0
      if amount ≤ 0 then
        (Outcome.validation "Payment amount must be greater than zero.", borrowers)
      else
        (Outcome.ok (applyPaymentB borrower { amount := amount }).remainingBalance,
         setFirst i (applyPaymentB borrower { amount := amount }) borrowers)

/-- Penalty branch of `handleUpdateLoan` on the file-storage path
(api/index.js:367-445).  Penalty amounts are not validated: any number
(after `Number(...) || 0` normalization) is accepted. -/
def handleApplyPenaltyFile (borrowers : List Borrower) (id : Option String)
    (rawAmount : Option ℚ) : Outcome × List Borrower :=
  match id with
  | none => (Outcome.validation "Missing borrower id.", borrowers)
  | some i =>
    match findBorrower i borrowers with
    | none => (Outcome.notFound, borrowers)
    | some borrower =>
      let amount := rawAmount.getD 0
      (Outcome.ok (applyPenaltyB borrower { amount := amount }).remainingBalance,
       setFirst i (applyPenaltyB borrower { amount := amount }) borrowers)

/-- `handleDeleteLoan` on the file-storage path (api/index.js:478-495). -/
def handleDeleteLoanFile (borrowers : List Borrower) (id : Option String) :
    DeleteOutcome × List Borrower :=
  match id with
  | none => (DeleteOutcome.validation "Missing borrower id.", borrowers)
  | some i =>
    match findBorrower i borrowers with
    | none => (DeleteOutcome.notFound, borrowers)
    | some _ => (DeleteOutcome.deleted, removeFirst i borrowers)

/-- Payment branch of `handleUpdateLoan` on the database path
(api/index.js:296-347): the id must pass `ObjectId.isValid` (modelled by
the abstract format predicate `isValid`) before the lookup; the
collection is modelled as the list of stored documents. -/
def handleApplyPaymentDb (isValid : String → Bool) (store : List Borrower)
    (id : Option String) (rawAmount : Option ℚ) : Outcome × List Borrower :=
  match id with
  | none => (Outcome.validation "Missing borrower id.", store)
  | some i =>
    if ¬ isValid i then
      (Outcome.validation "Invalid borrower ID format.", store)
    else
      match findBorrower i store with
      | none => (Outcome.notFound, store)
      | some borrower =>
        let amount := rawAmount.getD 0
        if amount ≤ 0 then
          (Outcome.validation "Payment amount must be greater than zero.", store)
        else
          (Outcome.ok (applyPaymentB borrower { amount := amount }).remainingBalance,
           setFirst i (applyPaymentB borrower { amount := amount }) store)

/-- Penalty branch of `handleUpdateLoan` on the database path
(api/index.js:370-423). -/
def handleApplyPenaltyDb (isValid : String → Bool) (store : List Borrower)
    (id : Option String) (rawAmount : Option ℚ) : Outcome × List Borrower :=
  match id with
  | none => (Outcome.validation "Missing borrower id.", store)
  | some i =>
    if ¬ isValid i then
      (Outcome.validation "Invalid borrower ID format.", store)
    else
      match findBorrower i store with
      | none => (Outcome.notFound, store)
      | some borrower =>
        let amount := rawAmount.getD 0
        (Outcome.ok (applyPenaltyB borrower { amount := amount }).remainingBalance,
         setFirst i (applyPenaltyB borrower { amount := amount }) store)

/-- `handleDeleteLoan` on the database path (api/index.js:463-477):
`ObjectId.isValid` check, then `deleteOne`; `deletedCount === 0` maps to
not-found. -/
def handleDeleteLoanDb (isValid : String → Bool) (store : List Borrower)
    (id : Option String) : DeleteOutcome × List Borrower :=
  match id with
  | none => (DeleteOutcome.validation "Missing borrower id.", store)
  | some i =>
    if ¬ isValid i then
      (DeleteOutcome.validation "Invalid borrower ID format.", store)
    else
      match findBorrower i store with
      | none => (DeleteOutcome.notFound, store)
      | some _ => (DeleteOutcome.deleted, removeFirst i store)

/-! ### Backend selector (`useFileStorage` / `connectToDatabase`) -/

/-- The process-global backend-selection state: `db` set (a live
connection cached in the global `db`) and the `useFileStorage` flag. -/
structure SelState where
  hasDb : Bool
  useFileStorage : Bool
  deriving Repr, DecidableEq

/-- One call to `connectToDatabase` (api/index.js:84-119).  Each
constructor is one return path of the function: a cached connection or an
already-active file mode leave the state unchanged; missing modules,
missing URI, or a connection failure set `useFileStorage = true`; a
successful connection caches `db`.  Core operations (`handleGetLoans`,
`handleCreateLoan`, `handleUpdateLoan`, `handleDeleteLoan`) never write
`useFileStorage` outside this function. -/
inductive SelStep : SelState → SelState → Prop
  | cachedDb (s : SelState) (h : s.hasDb = true) : SelStep s s
  | fileActive (s : SelState) (h : s.useFileStorage = true) : SelStep s s
  | modulesMissing (s : SelState) (h : s.hasDb = false)
      (h2 : s.useFileStorage = false) :
      SelStep s { s with useFileStorage := true }
  | noUri (s : SelState) (h : s.hasDb = false) (h2 : s.useFileStorage = false) :
      SelStep s { s with useFileStorage := true }
  | connectSuccess (s : SelState) (h : s.hasDb = false)
      (h2 : s.useFileStorage = false) :
      SelStep s { s with hasDb := true }
  | connectFailure (s : SelState) (h : s.hasDb = false)
      (h2 : s.useFileStorage = false) :
      SelStep s { s with useFileStorage := true }

/-! ### Reachable single-borrower states -/

/-- Borrower records reachable through the core mutation pipeline: a
create (any normalized numeric inputs — the handler accepts them all),
followed by any sequence of accepted payments (`amount > 0`, enforced at
api/index.js:318) and penalties (any amount). -/
inductive ReachableB : Borrower → Prop
  | create (id name contact address : String)
      (loanAmount term interestRate : ℚ) (interestType : String)
      (monthlyPayment : ℚ) :
      ReachableB (createBorrower id name contact address
        loanAmount term interestRate interestType monthlyPayment)
  | pay (b : Borrower) (p : Payment) (hp : 0 < p.amount)
      (hb : ReachableB b) : ReachableB (applyPaymentB b p)
  | pen (b : Borrower) (q : Penalty) (hb : ReachableB b) :
      ReachableB (applyPenaltyB b q)

/-- The balance formula asserted by the specification for a stored
record: `loanAmount + totalInterest + totalPenalties − sum(payments)`,
with the interest term the creation-time one. -/
def unflooredBalance (b : Borrower) : ℚ :=
  b.loanAmount +
    totalInterestAtCreation b.loanAmount b.interestRate b.term b.interestType +
    b.totalPenalties - sumPaymentAmounts b.payments

/-! ### Helper lemmas -/

theorem calcInit_eq_add_interest (la r t : ℚ) (ty : String) :
    calculateInitialBalance la r t ty = la + totalInterestAtCreation la r t ty := by
  simp only [calculateInitialBalance, totalInterestAtCreation]
  split_ifs with h <;> ring

/-- For nonnegative `loanAmount` and `term`, the truthiness-guarded
interest recomputation of the update paths agrees with the creation-time
interest. -/
theorem recomputed_eq_creation (la r t : ℚ) (ty : String)
    (hla : 0 ≤ la) (ht : 0 ≤ t) :
    recomputedInterest la r t ty = totalInterestAtCreation la r t ty := by
  simp only [recomputedInterest, totalInterestAtCreation]
  by_cases h : la ≤ 0 ∨ t ≤ 0
  · rw [if_pos h]
    rcases h with h | h
    · have hla0 : la = 0 := le_antisymm h hla
      subst hla0
      split_ifs <;> simp
    · have ht0 : t = 0 := le_antisymm h ht
      subst ht0
      split_ifs <;> simp
  · rw [if_neg h]
    push_neg at h
    by_cases hr : r = 0
    · subst hr
      rw [if_neg (by simp)]
      split_ifs <;> simp
    · rw [if_pos ⟨hr, h.2.ne'⟩]

theorem sumPaymentAmounts_append (ps : List Payment) (p : Payment) :
    sumPaymentAmounts (ps ++ [p]) = sumPaymentAmounts ps + p.amount := by
  simp [sumPaymentAmounts]

theorem sumPenaltyAmounts_append (ps : List Penalty) (q : Penalty) :
    sumPenaltyAmounts (ps ++ [q]) = sumPenaltyAmounts ps + q.amount := by
  simp [sumPenaltyAmounts]

theorem findBorrower_append_first (l₁ l₂ : List Borrower) (b : Borrower)
    (i : String) (hb : b._id = i) (hfirst : ∀ x ∈ l₁, x._id ≠ i) :
    findBorrower i (l₁ ++ b :: l₂) = some b := by
  induction l₁ with
  | nil => simp [findBorrower, hb]
  | cons x rest ih =>
    have hx : x._id ≠ i := hfirst x (by simp)
    simp only [List.cons_append, findBorrower, if_neg hx]
    exact ih fun y hy => hfirst y (by simp [hy])

theorem removeFirst_append_first (l₁ l₂ : List Borrower) (b : Borrower)
    (i : String) (hb : b._id = i) (hfirst : ∀ x ∈ l₁, x._id ≠ i) :
    removeFirst i (l₁ ++ b :: l₂) = l₁ ++ l₂ := by
  induction l₁ with
  | nil => simp [removeFirst, hb]
  | cons x rest ih =>
    have hx : x._id ≠ i := hfirst x (by simp)
    simp only [List.cons_append, removeFirst, if_neg hx, List.cons.injEq, true_and]
    exact ih fun y hy => hfirst y (by simp [hy])

theorem removeFirst_subset (i : String) (l : List Borrower) :
    ∀ b ∈ removeFirst i l, b ∈ l := by
  induction l with
  | nil => simp [removeFirst]
  | cons x rest ih =>
    intro b hb
    by_cases hx : x._id = i
    · simp only [removeFirst, if_pos hx] at hb
      exact List.mem_cons_of_mem x hb
    · simp only [removeFirst, if_neg hx] at hb
      rcases List.mem_cons.mp hb with h | h
      · exact h ▸ List.mem_cons_self x rest
      · exact List.mem_cons_of_mem x (ih b h)

@[simp] theorem applyPaymentB_loanAmount (b : Borrower) (p : Payment) :
    (applyPaymentB b p).loanAmount = b.loanAmount := rfl

@[simp] theorem applyPaymentB_term (b : Borrower) (p : Payment) :
    (applyPaymentB b p).term = b.term := rfl

@[simp] theorem applyPaymentB_interestRate (b : Borrower) (p : Payment) :
    (applyPaymentB b p).interestRate = b.interestRate := rfl

@[simp] theorem applyPaymentB_interestType (b : Borrower) (p : Payment) :
    (applyPaymentB b p).interestType = b.interestType := rfl

@[simp] theorem applyPaymentB_totalPenalties (b : Borrower) (p : Payment) :
    (applyPaymentB b p).totalPenalties = b.totalPenalties := rfl

@[simp] theorem applyPaymentB_penalties (b : Borrower) (p : Payment) :
    (applyPaymentB b p).penalties = b.penalties := rfl

@[simp] theorem applyPaymentB_payments (b : Borrower) (p : Payment) :
    (applyPaymentB b p).payments = b.payments ++ [p] := rfl

theorem applyPaymentB_remainingBalance (b : Borrower) (p : Payment) :
    (applyPaymentB b p).remainingBalance =
      max (b.loanAmount +
        recomputedInterest b.loanAmount b.interestRate b.term b.interestType +
        b.totalPenalties - (sumPaymentAmounts b.payments + p.amount)) 0 := rfl

@[simp] theorem applyPenaltyB_loanAmount (b : Borrower) (q : Penalty) :
    (applyPenaltyB b q).loanAmount = b.loanAmount := rfl

@[simp] theorem applyPenaltyB_term (b : Borrower) (q : Penalty) :
    (applyPenaltyB b q).term = b.term := rfl

@[simp] theorem applyPenaltyB_interestRate (b : Borrower) (q : Penalty) :
    (applyPenaltyB b q).interestRate = b.interestRate := rfl

@[simp] theorem applyPenaltyB_interestType (b : Borrower) (q : Penalty) :
    (applyPenaltyB b q).interestType = b.interestType := rfl

@[simp] theorem applyPenaltyB_payments (b : Borrower) (q : Penalty) :
    (applyPenaltyB b q).payments = b.payments := rfl

@[simp] theorem applyPenaltyB_penalties (b : Borrower) (q : Penalty) :
    (applyPenaltyB b q).penalties = b.penalties ++ [q] := rfl

@[simp] theorem applyPenaltyB_totalPenalties (b : Borrower) (q : Penalty) :
    (applyPenaltyB b q).totalPenalties =
      sumPenaltyAmounts b.penalties + q.amount := rfl

theorem applyPenaltyB_remainingBalance (b : Borrower) (q : Penalty) :
    (applyPenaltyB b q).remainingBalance =
      b.loanAmount +
        recomputedInterest b.loanAmount b.interestRate b.term b.interestType +
        (sumPenaltyAmounts b.penalties + q.amount) -
        sumPaymentAmounts b.payments := rfl

@[simp] theorem createBorrower_loanAmount (id name contact address : String)
    (la t r : ℚ) (ty : String) (mp : ℚ) :
    (createBorrower id name contact address la t r ty mp).loanAmount = la := rfl

@[simp] theorem createBorrower_term (id name contact address : String)
    (la t r : ℚ) (ty : String) (mp : ℚ) :
    (createBorrower id name contact address la t r ty mp).term = t := rfl

@[simp] theorem createBorrower_interestRate (id name contact address : String)
    (la t r : ℚ) (ty : String) (mp : ℚ) :
    (createBorrower id name contact address la t r ty mp).interestRate = r := rfl

@[simp] theorem createBorrower_interestType (id name contact address : String)
    (la t r : ℚ) (ty : String) (mp : ℚ) :
    (createBorrower id name contact address la t r ty mp).interestType = ty := rfl

@[simp] theorem createBorrower_payments (id name contact address : String)
    (la t r : ℚ) (ty : String) (mp : ℚ) :
    (createBorrower id name contact address la t r ty mp).payments = [] := rfl

@[simp] theorem createBorrower_penalties (id name contact address : String)
    (la t r : ℚ) (ty : String) (mp : ℚ) :
    (createBorrower id name contact address la t r ty mp).penalties = [] := rfl

@[simp] theorem createBorrower_totalPenalties (id name contact address : String)
    (la t r : ℚ) (ty : String) (mp : ℚ) :
    (createBorrower id name contact address la t r ty mp).totalPenalties = 0 := rfl

theorem createBorrower_remainingBalance (id name contact address : String)
    (la t r : ℚ) (ty : String) (mp : ℚ) :
    (createBorrower id name contact address la t r ty mp).remainingBalance =
      calculateInitialBalance la r t ty := rfl

@[simp] theorem createBorrower_id_field (id name contact address : String)
    (la t r : ℚ) (ty : String) (mp : ℚ) :
    (createBorrower id name contact address la t r ty mp)._id = id := rfl

/-! ### Claim theorems -/

/-- C2: the initial `remainingBalance` stored by the create operation is
`loanAmount` unchanged when `loanAmount ≤ 0` or `term ≤ 0`, and otherwise
`loanAmount + loanAmount * (periodRate / 100) * term` with
`periodRate = interestRate / 12` for `annually` and `interestRate`
otherwise; in particular `loanAmount = 1000`, `interestRate = 12`,
`term = 10`, `interestType = monthly` yields `2200`. -/
theorem create_initial_balance_formula (id name contact address : String)
    (la t r : ℚ) (ty : String) (mp : ℚ) :
    ((createBorrower id name contact address la t r ty mp).remainingBalance =
      if la ≤ 0 ∨ t ≤ 0 then la
      else la + la * ((if ty = "annually" then r / 12 else r) / 100) * t) ∧
    (createBorrower "b" "n" "c" "a" 1000 10 12 "monthly" 0).remainingBalance
      = 2200 := by
  constructor
  · rfl
  · rw [createBorrower_remainingBalance]
    simp [calculateInitialBalance]
    norm_num

/-- C3: the payment path stores
`max(loanAmount + totalInterest + totalPenalties − totalPayments, 0)` —
clamped at zero and never negative — while the penalty path stores the
unclamped value `loanAmount + totalInterest + newTotalPenalties −
totalPayments`, which can be negative. -/
theorem update_balance_floor_asymmetry (b : Borrower) (p : Payment)
    (q : Penalty) :
    (applyPaymentB b p).remainingBalance =
      max (b.loanAmount +
        recomputedInterest b.loanAmount b.interestRate b.term b.interestType +
        b.totalPenalties - (sumPaymentAmounts b.payments + p.amount)) 0 ∧
    0 ≤ (applyPaymentB b p).remainingBalance ∧
    (applyPenaltyB b q).remainingBalance =
      b.loanAmount +
        recomputedInterest b.loanAmount b.interestRate b.term b.interestType +
        (sumPenaltyAmounts b.penalties + q.amount) -
        sumPaymentAmounts b.payments ∧
    (applyPenaltyB (createBorrower "b0" "n" "c" "a" 100 0 0 "monthly" 0)
        { amount := -200 }).remainingBalance < 0 := by
  refine ⟨rfl, le_max_right _ _, rfl, ?_⟩
  rw [applyPenaltyB_remainingBalance]
  simp [createBorrower, calculateInitialBalance, recomputedInterest,
    sumPaymentAmounts, sumPenaltyAmounts]
  norm_num

/-- C5: with `loanAmount > 0` and `term > 0`, the interest computation
with `interestType = annually` at rate `r` agrees exactly with
`interestType = monthly` at rate `r / 12`, both at creation
(`calculateInitialBalance`) and in the recomputation shared by the
payment and penalty paths (`recomputedInterest`). -/
theorem interest_annual_monthly_equiv (la r t : ℚ)
    (hla : 0 < la) (ht : 0 < t) :
    calculateInitialBalance la r t "annually" =
      calculateInitialBalance la (r / 12) t "monthly" ∧
    recomputedInterest la r t "annually" =
      recomputedInterest la (r / 12) t "monthly" := by
  have hcond : ¬ (la ≤ 0 ∨ t ≤ 0) := by
    push_neg
    exact ⟨hla, ht⟩
  constructor
  · simp only [calculateInitialBalance, if_neg hcond]
    simp
  · simp only [recomputedInterest]
    by_cases hr : r = 0
    · subst hr
      simp
    · have h1 : r ≠ 0 ∧ t ≠ 0 := ⟨hr, ht.ne'⟩
      have h2 : r / 12 ≠ 0 ∧ t ≠ 0 := ⟨div_ne_zero hr (by norm_num), ht.ne'⟩
      rw [if_pos h1, if_pos h2]
      simp

/-- C5 witness: the equivalence at `loanAmount = 1000`, `rate = 12`,
`term = 10`. -/
theorem interest_annual_monthly_equiv_witness :
    calculateInitialBalance 1000 12 10 "annually" =
      calculateInitialBalance 1000 (12 / 12) 10 "monthly" ∧
    recomputedInterest 1000 12 10 "annually" =
      recomputedInterest 1000 (12 / 12) 10 "monthly" :=
  interest_annual_monthly_equiv 1000 12 10 (by norm_num) (by norm_num)

/-- C1 (amended): for every reachable borrower whose stored `loanAmount`
and `term` are nonnegative, the stored `remainingBalance` equals
`loanAmount + totalInterest + totalPenalties − sum(payments)`, possibly
floored at zero (the floor arises only from payment application), and the
interest recomputed by the update paths agrees with the creation-time
interest.  The nonnegativity hypotheses are necessary: see the
counterexample with a negative `loanAmount`. -/
theorem balance_cache_invariant (b : Borrower) (h : ReachableB b)
    (hla : 0 ≤ b.loanAmount) (ht : 0 ≤ b.term) :
    (b.remainingBalance = unflooredBalance b ∨
      b.remainingBalance = max (unflooredBalance b) 0) ∧
    recomputedInterest b.loanAmount b.interestRate b.term b.interestType =
      totalInterestAtCreation b.loanAmount b.interestRate b.term
        b.interestType := by
  refine ⟨?_, recomputed_eq_creation _ _ _ _ hla ht⟩
  cases h with
  | create id name contact address la t r ty mp =>
    left
    rw [createBorrower_remainingBalance, calcInit_eq_add_interest]
    simp [unflooredBalance, sumPaymentAmounts]
  | pay b p hp hb =>
    right
    have hla' : 0 ≤ b.loanAmount := hla
    have ht' : 0 ≤ b.term := ht
    rw [applyPaymentB_remainingBalance,
      recomputed_eq_creation _ _ _ _ hla' ht']
    simp only [unflooredBalance, applyPaymentB_loanAmount,
      applyPaymentB_term, applyPaymentB_interestRate,
      applyPaymentB_interestType, applyPaymentB_totalPenalties,
      applyPaymentB_payments, sumPaymentAmounts_append]
  | pen b q hb =>
    left
    have hla' : 0 ≤ b.loanAmount := hla
    have ht' : 0 ≤ b.term := ht
    rw [applyPenaltyB_remainingBalance,
      recomputed_eq_creation _ _ _ _ hla' ht']
    simp only [unflooredBalance, applyPenaltyB_loanAmount,
      applyPenaltyB_term, applyPenaltyB_interestRate,
      applyPenaltyB_interestType, applyPenaltyB_totalPenalties,
      applyPenaltyB_payments]

/-- C1 witness: the amended invariant at a concrete reachable borrower —
created with `loanAmount = 1000`, `term = 10`, `rate = 12` and then paid
`500`. -/
theorem balance_cache_invariant_witness :
    ((applyPaymentB (createBorrower "w1" "n" "c" "a" 1000 10 12 "monthly" 0)
        { amount := 500 }).remainingBalance =
      unflooredBalance
        (applyPaymentB (createBorrower "w1" "n" "c" "a" 1000 10 12 "monthly" 0)
          { amount := 500 }) ∨
     (applyPaymentB (createBorrower "w1" "n" "c" "a" 1000 10 12 "monthly" 0)
        { amount := 500 }).remainingBalance =
      max (unflooredBalance
        (applyPaymentB (createBorrower "w1" "n" "c" "a" 1000 10 12 "monthly" 0)
          { amount := 500 })) 0) ∧
    recomputedInterest
      (applyPaymentB (createBorrower "w1" "n" "c" "a" 1000 10 12 "monthly" 0)
        { amount := 500 }).loanAmount
      (applyPaymentB (createBorrower "w1" "n" "c" "a" 1000 10 12 "monthly" 0)
        { amount := 500 }).interestRate
      (applyPaymentB (createBorrower "w1" "n" "c" "a" 1000 10 12 "monthly" 0)
        { amount := 500 }).term
      (applyPaymentB (createBorrower "w1" "n" "c" "a" 1000 10 12 "monthly" 0)
        { amount := 500 }).interestType =
    totalInterestAtCreation
      (applyPaymentB (createBorrower "w1" "n" "c" "a" 1000 10 12 "monthly" 0)
        { amount := 500 }).loanAmount
      (applyPaymentB (createBorrower "w1" "n" "c" "a" 1000 10 12 "monthly" 0)
        { amount := 500 }).interestRate
      (applyPaymentB (createBorrower "w1" "n" "c" "a" 1000 10 12 "monthly" 0)
        { amount := 500 }).term
      (applyPaymentB (createBorrower "w1" "n" "c" "a" 1000 10 12 "monthly" 0)
        { amount := 500 }).interestType :=
  balance_cache_invariant _
    (ReachableB.pay _ _ (by norm_num)
      (ReachableB.create "w1" "n" "c" "a" 1000 10 12 "monthly" 0))
    (by norm_num) (by norm_num)

/-- C1 counterexample: a borrower created with `loanAmount = −100`,
`term = 5`, `interestRate = 10` (accepted by the create handler) and then
given a penalty of `50` stores `remainingBalance = −100`, while the
claimed formula gives `−50` (and its floored form `0`): the update paths
recompute a nonzero interest where creation accrued none. -/
theorem balance_cache_invariant_counterexample :
    (applyPenaltyB (createBorrower "d" "n" "c" "a" (-100) 5 10 "monthly" 0)
        { amount := 50 }).remainingBalance ≠
      unflooredBalance
        (applyPenaltyB (createBorrower "d" "n" "c" "a" (-100) 5 10 "monthly" 0)
          { amount := 50 }) ∧
    (applyPenaltyB (createBorrower "d" "n" "c" "a" (-100) 5 10 "monthly" 0)
        { amount := 50 }).remainingBalance ≠
      max (unflooredBalance
        (applyPenaltyB (createBorrower "d" "n" "c" "a" (-100) 5 10 "monthly" 0)
          { amount := 50 })) 0 ∧
    recomputedInterest (-100) 10 5 "monthly" ≠
      totalInterestAtCreation (-100) 10 5 "monthly" := by
  refine ⟨?_, ?_, ?_⟩
  · rw [applyPenaltyB_remainingBalance]
    simp [unflooredBalance, calculateInitialBalance, recomputedInterest,
      totalInterestAtCreation, sumPaymentAmounts, sumPenaltyAmounts]
  · rw [applyPenaltyB_remainingBalance]
    simp [unflooredBalance, calculateInitialBalance, recomputedInterest,
      totalInterestAtCreation, sumPaymentAmounts, sumPenaltyAmounts]
    norm_num
  · simp [recomputedInterest, totalInterestAtCreation]

/-- C4 (amended): for a borrower with zero prior penalties whose stored
`remainingBalance` equals the unfloored recomputed value
`loanAmount + recomputedInterest + totalPenalties − totalPayments`,
applying a penalty of `50` increases `totalPenalties` by exactly `50` and
`remainingBalance` by exactly `50`, with no flooring.  The extra
hypothesis on the stored balance is necessary: a prior overpayment floors
the stored balance at zero, and the next penalty then rebuilds the
balance from the unfloored value — see the counterexample. -/
theorem penalty_increments_by_amount (b : Borrower)
    (hpen : b.penalties = []) (htp : b.totalPenalties = 0)
    (hbal : b.remainingBalance = b.loanAmount +
      recomputedInterest b.loanAmount b.interestRate b.term b.interestType +
      b.totalPenalties - sumPaymentAmounts b.payments) :
    (applyPenaltyB b { amount := 50 }).totalPenalties =
      b.totalPenalties + 50 ∧
    (applyPenaltyB b { amount := 50 }).remainingBalance =
      b.remainingBalance + 50 := by
  constructor
  · rw [applyPenaltyB_totalPenalties, hpen, htp]
    simp [sumPenaltyAmounts]
  · rw [applyPenaltyB_remainingBalance, hbal, hpen, htp]
    simp only [sumPenaltyAmounts, List.map_nil, List.sum_nil]
    ring

/-- C4 witness: the amended statement at a freshly created borrower
(`loanAmount = 1000`, `term = 10`, `rate = 12`, balance `2200`). -/
theorem penalty_increments_by_amount_witness :
    (applyPenaltyB (createBorrower "w4" "n" "c" "a" 1000 10 12 "monthly" 0)
        { amount := 50 }).totalPenalties =
      (createBorrower "w4" "n" "c" "a" 1000 10 12 "monthly" 0).totalPenalties
        + 50 ∧
    (applyPenaltyB (createBorrower "w4" "n" "c" "a" 1000 10 12 "monthly" 0)
        { amount := 50 }).remainingBalance =
      (createBorrower "w4" "n" "c" "a" 1000 10 12 "monthly" 0).remainingBalance
        + 50 :=
  penalty_increments_by_amount _ rfl rfl
    (by
      rw [createBorrower_remainingBalance]
      simp [calculateInitialBalance, recomputedInterest, sumPaymentAmounts])

/-- C4 counterexample: a borrower created with `loanAmount = 1000`,
`term = 10`, `rate = 12` (balance `2200`) who overpays `3000` has its
balance floored at `0`; it still has zero prior penalties, yet applying a
penalty of `50` moves the stored balance to `−750`, a change of `−750`,
not `+50`. -/
theorem penalty_increments_by_amount_counterexample :
    (applyPaymentB (createBorrower "c4" "n" "c" "a" 1000 10 12 "monthly" 0)
        { amount := 3000 }).penalties = [] ∧
    (applyPaymentB (createBorrower "c4" "n" "c" "a" 1000 10 12 "monthly" 0)
        { amount := 3000 }).remainingBalance = 0 ∧
    (applyPenaltyB
        (applyPaymentB (createBorrower "c4" "n" "c" "a" 1000 10 12 "monthly" 0)
          { amount := 3000 })
        { amount := 50 }).remainingBalance -
      (applyPaymentB (createBorrower "c4" "n" "c" "a" 1000 10 12 "monthly" 0)
        { amount := 3000 }).remainingBalance ≠ 50 := by
  refine ⟨rfl, ?_, ?_⟩
  · rw [applyPaymentB_remainingBalance]
    simp [calculateInitialBalance, recomputedInterest, sumPaymentAmounts]
    norm_num
  · rw [applyPenaltyB_remainingBalance, applyPaymentB_remainingBalance]
    simp [calculateInitialBalance, recomputedInterest, sumPaymentAmounts,
      sumPenaltyAmounts]
    norm_num

/-- C9: every reachable borrower satisfies
`totalPenalties = sum(penalties[*].amount)`: create initializes the pair
to `([], 0)`, apply-penalty appends the record and stores the recomputed
sum, and apply-payment touches neither field; delete only removes whole
records. -/
theorem totalPenalties_cache_invariant :
    (∀ b : Borrower, ReachableB b →
      b.totalPenalties = sumPenaltyAmounts b.penalties) ∧
    (∀ (id name contact address : String) (la t r : ℚ) (ty : String) (mp : ℚ),
      (createBorrower id name contact address la t r ty mp).penalties = [] ∧
      (createBorrower id name contact address la t r ty mp).totalPenalties
        = 0) ∧
    (∀ (b : Borrower) (q : Penalty),
      (applyPenaltyB b q).totalPenalties =
        sumPenaltyAmounts b.penalties + q.amount ∧
      (applyPenaltyB b q).penalties = b.penalties ++ [q]) ∧
    (∀ (b : Borrower) (p : Payment),
      (applyPaymentB b p).totalPenalties = b.totalPenalties ∧
      (applyPaymentB b p).penalties = b.penalties) ∧
    (∀ (borrowers : List Borrower) (i : String),
      ∀ b ∈ removeFirst i borrowers, b ∈ borrowers) := by
  refine ⟨?_, fun _ _ _ _ _ _ _ _ _ => ⟨rfl, rfl⟩,
    fun _ _ => ⟨rfl, rfl⟩, fun _ _ => ⟨rfl, rfl⟩, fun borrowers i => removeFirst_subset i borrowers⟩
  intro b h
  induction h with
  | create id name contact address la t r ty mp =>
    simp [sumPenaltyAmounts]
  | pay b p hp hb ih =>
    simpa using ih
  | pen b q hb ih =>
    simp [sumPenaltyAmounts_append]

/-- C9 witness: the invariant at a concrete reachable borrower — created,
paid `500`, then penalized `25`. -/
theorem totalPenalties_cache_invariant_witness :
    (applyPenaltyB
        (applyPaymentB (createBorrower "w9" "n" "c" "a" 1000 10 12 "monthly" 0)
          { amount := 500 })
        { amount := 25 }).totalPenalties =
      sumPenaltyAmounts
        (applyPenaltyB
          (applyPaymentB
            (createBorrower "w9" "n" "c" "a" 1000 10 12 "monthly" 0)
            { amount := 500 })
          { amount := 25 }).penalties :=
  totalPenalties_cache_invariant.1 _
    (ReachableB.pen _ _
      (ReachableB.pay _ _ (by norm_num)
        (ReachableB.create "w9" "n" "c" "a" 1000 10 12 "monthly" 0)))

/-- C6 (amended): Apply Payment fails with a validation error when the id
is missing, or when the id matches a record and the normalized amount is
not strictly greater than zero; it fails with not-found when an id is
supplied but matches no record — the lookup happens *before* the amount
check, so a nonexistent id with an invalid amount yields not-found, not a
validation error; it succeeds, appending the payment and updating
`remainingBalance`, exactly when the id matches and the amount is
positive; both error outcomes leave the stored records unchanged. -/
theorem apply_payment_outcomes (borrowers : List Borrower) (i : String)
    (raw : Option ℚ) :
    (handleApplyPaymentFile borrowers none raw =
      (Outcome.validation "Missing borrower id.", borrowers)) ∧
    (findBorrower i borrowers = none →
      handleApplyPaymentFile borrowers (some i) raw =
        (Outcome.notFound, borrowers)) ∧
    (∀ b : Borrower, findBorrower i borrowers = some b → raw.getD 0 ≤ 0 →
      handleApplyPaymentFile borrowers (some i) raw =
        (Outcome.validation "Payment amount must be greater than zero.",
         borrowers)) ∧
    (∀ b : Borrower, findBorrower i borrowers = some b → 0 < raw.getD 0 →
      handleApplyPaymentFile borrowers (some i) raw =
        (Outcome.ok (applyPaymentB b { amount := raw.getD 0 }).remainingBalance,
         setFirst i (applyPaymentB b { amount := raw.getD 0 }) borrowers) ∧
      (applyPaymentB b { amount := raw.getD 0 }).payments =
        b.payments ++ [{ amount := raw.getD 0 }]) := by
  refine ⟨rfl, ?_, ?_, ?_⟩
  · intro h
    simp [handleApplyPaymentFile, h]
  · intro b hf hle
    simp only [handleApplyPaymentFile, hf]
    rw [if_pos hle]
  · intro b hf hpos
    simp only [handleApplyPaymentFile, hf]
    rw [if_neg (not_le.mpr hpos)]
    exact ⟨rfl, rfl⟩

/-- C6 witness: a supplied id that matches no record yields not-found and
leaves the (empty) record set unchanged. -/
theorem apply_payment_outcomes_witness :
    handleApplyPaymentFile [] (some "x") (some 500) =
      (Outcome.notFound, []) :=
  (apply_payment_outcomes [] "x" (some 500)).2.1 rfl

/-- C6 counterexample: with a nonexistent id and a zero amount the
operation returns not-found, not the validation error the claim requires
for every non-positive amount. -/
theorem apply_payment_outcomes_counterexample :
    (handleApplyPaymentFile [] (some "x") (some 0)).1 = Outcome.notFound ∧
    (handleApplyPaymentFile [] (some "x") (some 0)).1 ≠
      Outcome.validation "Payment amount must be greater than zero." := by
  refine ⟨rfl, ?_⟩
  intro h
  exact Outcome.noConfusion h

/-- C7: the backend-selection state is one-way monotone.  From a
database-eligible state (`db` unset, `useFileStorage = false`) a
connection failure — like the missing-module and missing-URI paths — is a
step into `useFileStorage = true`, and no sequence of `connectToDatabase`
outcomes (the only code that writes `useFileStorage`) ever brings
`useFileStorage` back to `false`. -/
theorem selector_failover_monotone :
    (∀ s : SelState, s.hasDb = false → s.useFileStorage = false →
      SelStep s { s with useFileStorage := true } ∧
      ({ s with useFileStorage := true } : SelState).useFileStorage = true) ∧
    (∀ s s' : SelState, Relation.ReflTransGen SelStep s s' →
      s.useFileStorage = true → s'.useFileStorage = true) := by
  constructor
  · intro s h h2
    exact ⟨SelStep.connectFailure s h h2, rfl⟩
  · intro s s' h hs
    induction h with
    | refl => exact hs
    | tail hab hbc ih =>
      cases hbc with
      | cachedDb h => exact ih
      | fileActive h => exact ih
      | modulesMissing h h2 => rfl
      | noUri h h2 => rfl
      | connectSuccess h h2 => exact ih
      | connectFailure h h2 => rfl

/-- C7 witness: the failover step from the initial database-eligible
state, and permanence along a step taken from the file-active state. -/
theorem selector_failover_monotone_witness :
    (SelStep ⟨false, false⟩ ⟨false, true⟩ ∧
      (⟨false, true⟩ : SelState).useFileStorage = true) ∧
    (⟨false, true⟩ : SelState).useFileStorage = true :=
  ⟨selector_failover_monotone.1 ⟨false, false⟩ rfl rfl,
   selector_failover_monotone.2 ⟨false, true⟩ ⟨false, true⟩
     (Relation.ReflTransGen.single (SelStep.fileActive ⟨false, true⟩ rfl)) rfl⟩

/-- C8: on the database backend, payment, penalty and delete requests
whose id fails the backend's format check are rejected with the client
error `Invalid borrower ID format.`, leaving the store unchanged; a
well-formed id matching no record yields the distinct not-found outcome;
and the file-storage handlers never produce the format-check error. -/
theorem db_id_format_check (isValid : String → Bool)
    (store : List Borrower) (i : String) (raw : Option ℚ) :
    (isValid i = false →
      (handleApplyPaymentDb isValid store (some i) raw =
        (Outcome.validation "Invalid borrower ID format.", store)) ∧
      (handleApplyPenaltyDb isValid store (some i) raw =
        (Outcome.validation "Invalid borrower ID format.", store)) ∧
      (handleDeleteLoanDb isValid store (some i) =
        (DeleteOutcome.validation "Invalid borrower ID format.", store))) ∧
    (isValid i = true → findBorrower i store = none →
      (handleApplyPaymentDb isValid store (some i) raw).1 = Outcome.notFound ∧
      (handleApplyPenaltyDb isValid store (some i) raw).1 = Outcome.notFound ∧
      (handleDeleteLoanDb isValid store (some i)).1 = DeleteOutcome.notFound) ∧
    (Outcome.validation "Invalid borrower ID format." ≠ Outcome.notFound) ∧
    ((handleApplyPaymentFile store (some i) raw).1 ≠
      Outcome.validation "Invalid borrower ID format.") ∧
    ((handleApplyPenaltyFile store (some i) raw).1 ≠
      Outcome.validation "Invalid borrower ID format.") ∧
    ((handleDeleteLoanFile store (some i)).1 ≠
      DeleteOutcome.validation "Invalid borrower ID format.") := by
  refine ⟨?_, ?_, by simp, ?_, ?_, ?_⟩
  · intro h
    refine ⟨?_, ?_, ?_⟩ <;>
      simp [handleApplyPaymentDb, handleApplyPenaltyDb, handleDeleteLoanDb, h]
  · intro hv hf
    refine ⟨?_, ?_, ?_⟩ <;>
      simp [handleApplyPaymentDb, handleApplyPenaltyDb, handleDeleteLoanDb,
        hv, hf]
  · rcases hf : findBorrower i store with _ | b
    · simp [handleApplyPaymentFile, hf]
    · simp only [handleApplyPaymentFile, hf]
      split_ifs <;> simp
  · rcases hf : findBorrower i store with _ | b <;>
      simp [handleApplyPenaltyFile, hf]
  · rcases hf : findBorrower i store with _ | b <;>
      simp [handleDeleteLoanFile, hf]

/-- C8 witness: with a format check that rejects everything, the three
database handlers reject the id `"x"` as a malformed-id client error over
an empty store. -/
theorem db_id_format_check_witness :
    (handleApplyPaymentDb (fun _ => false) [] (some "x") none =
      (Outcome.validation "Invalid borrower ID format.", [])) ∧
    (handleApplyPenaltyDb (fun _ => false) [] (some "x") none =
      (Outcome.validation "Invalid borrower ID format.", [])) ∧
    (handleDeleteLoanDb (fun _ => false) [] (some "x") =
      (DeleteOutcome.validation "Invalid borrower ID format.", [])) :=
  (db_id_format_check (fun _ => false) [] "x" none).1 rfl

/-- C10: in file-storage mode, deleting an existing id removes exactly
the first record whose `_id` matches and leaves every other record
unchanged in content and relative order; a supplied id matching no record
yields not-found and leaves the record set unchanged. -/
theorem delete_file_frame (l₁ l₂ : List Borrower) (b : Borrower)
    (i : String) (hb : b._id = i) (hfirst : ∀ x ∈ l₁, x._id ≠ i) :
    handleDeleteLoanFile (l₁ ++ b :: l₂) (some i) =
      (DeleteOutcome.deleted, l₁ ++ l₂) ∧
    (∀ borrowers : List Borrower, findBorrower i borrowers = none →
      handleDeleteLoanFile borrowers (some i) =
        (DeleteOutcome.notFound, borrowers)) := by
  constructor
  · simp [handleDeleteLoanFile, findBorrower_append_first l₁ l₂ b i hb hfirst,
      removeFirst_append_first l₁ l₂ b i hb hfirst]
  · intro borrowers h
    simp [handleDeleteLoanFile, h]

/-- C10 witness: deleting id `"x"` from a two-record store removes the
matching second record and keeps the first, in place. -/
theorem delete_file_frame_witness :
    handleDeleteLoanFile
      [createBorrower "a" "n" "c" "ad" 1 1 1 "monthly" 0,
       createBorrower "x" "n2" "c2" "ad2" 2 2 2 "monthly" 0] (some "x") =
      (DeleteOutcome.deleted,
       [createBorrower "a" "n" "c" "ad" 1 1 1 "monthly" 0]) :=
  (delete_file_frame [createBorrower "a" "n" "c" "ad" 1 1 1 "monthly" 0] []
    (createBorrower "x" "n2" "c2" "ad2" 2 2 2 "monthly" 0) "x" rfl
    (by
      intro x hx
      simp only [List.mem_singleton] at hx
      subst hx
      simp)).1

end LoanApp

